import Mathlib

set_option maxRecDepth 10000

/-!
Shallow embedding of the BakeBot session-orchestration core.

Source files embedded here:
- `models/schemas.py` : the wire enums and envelope (`MessageType`, `SessionType`,
  `DataChannelMessage`, `SessionConfig`);
- `services/google_ai_service.py` : `generate_text_response`, `analyze_image`,
  `generate_voice_response`, with the external Gemini calls modelled as
  fallible oracles (`Except Unit String`);
- `agent/bakebot_agent.py` : `_handle_data_message`, `_handle_text_message`,
  `_handle_image_message`, `_handle_control_message`, `_send_message`,
  `get_performance_stats`, and `BakeBotLLMAdapter.chat`.

Modelling conventions:
- Python strings are Lean `String`, character counts agree with Python `len`.
- Payload dictionaries (`Dict[str, Any]`, read only at string-valued keys by the
  code under scrutiny) are association lists `List (String, String)`; `dict.get`
  is `pget` / `pgetD`.
- Wall-clock timestamps are `Nat` (their arithmetic is never used by the code
  under scrutiny, only pass-through).
- Latency samples are `Rat` (Python floats; only sum, division, min, max and
  emptiness are used, all exact in the source scenarios under scrutiny).
- Awaited external effects (publishing a data message, `VoiceAssistant.cancel`,
  the generation service) are modelled by an environment `ExtEnv` saying
  whether each call raises; a raised exception propagates to the
  `try`/`except` in `_handle_data_message`, which is modelled by each handler
  returning the state reached at the point of the raise.
- Each handler also returns the ordered trace of its observable actions
  (`Event` list): history appends, generation requests, config transitions,
  synthesis cancellations and outbound sends, in program order.
-/

namespace BakeBot

/-- Wire-level message kinds, from `models/schemas.py` `MessageType`. -/
inductive MessageType
  | text
  | image
  | control
deriving DecidableEq

/-- Session kinds, from `models/schemas.py` `SessionType`. -/
inductive SessionType
  | text
  | voicePtt
  | voiceVad
deriving DecidableEq

/-- Conversion of a wire string to `SessionType`, modelling the Python enum
call `SessionType(session_type)`; `none` models the `ValueError` raised on an
unrecognized value. -/
def SessionType.fromString? : String → Option SessionType
  | "text" => some SessionType.text
  | "voice-ptt" => some SessionType.voicePtt
  | "voice-vad" => some SessionType.voiceVad
  | _ => none

/-- Conversion of a wire string to `MessageType`, modelling the pydantic
validation of the `type` field of `DataChannelMessage`. -/
def MessageType.fromString? : String → Option MessageType
  | "text" => some MessageType.text
  | "image" => some MessageType.image
  | "control" => some MessageType.control
  | _ => none

/-- Payload dictionaries: the code reads only string values at string keys. -/
abbrev Payload := List (String × String)

/-- Python `dict.get(key)` on a payload. -/
def pget (p : Payload) (k : String) : Option String := p.lookup k

/-- Python `dict.get(key, default)` on a payload. -/
def pgetD (p : Payload) (k d : String) : String := (p.lookup k).getD d

/-- Wire envelope, from `models/schemas.py` `DataChannelMessage`. -/
structure DataChannelMessage where
  type : MessageType
  payload : Payload
  timestamp : Nat
  message_id : String
deriving DecidableEq

/-- Session configuration, from `models/schemas.py` `SessionConfig`. -/
structure SessionConfig where
  session_type : SessionType
  voice_mode : Option String
  user_id : String
  turn_detection : String
deriving DecidableEq

/-- One conversation-history entry, the dict
`{"sender": ..., "content": ..., "timestamp": ...}` appended by the handlers. -/
structure Turn where
  sender : String
  content : String
  timestamp : Nat
deriving DecidableEq

/-- The four per-agent latency sample lists from `BakeBotAgent.__init__`
(`self._performance_metrics`). -/
structure PerfMetrics where
  stt_latency : List ℚ
  tts_latency : List ℚ
  llm_latency : List ℚ
  total_roundtrip : List ℚ
deriving DecidableEq

/-- Metric state of a freshly constructed agent: all four lists empty. -/
def initialMetrics : PerfMetrics := ⟨[], [], [], []⟩

/-- Aggregate statistics for one metric, the four entries
`{name}_avg`, `{name}_min`, `{name}_max`, `{name}_count` that
`get_performance_stats` emits for it. -/
structure MetricStats where
  avg : ℚ
  min : ℚ
  max : ℚ
  count : Nat
deriving DecidableEq

/-- Statistics of one sample list, from the loop body of
`get_performance_stats`: the `if values:` guard returns the four zero constants
on an empty list, so no `sum(...)/len(...)`, `min(...)` or `max(...)` is ever
evaluated over an empty list. Python `min`/`max` over a nonempty list are the
folds below. -/
def statsFor (values : List ℚ) : MetricStats :=
  match values with
  | [] => ⟨0, 0, 0, 0⟩
  | v :: vs =>
      ⟨(v :: vs).sum / ((v :: vs).length : ℚ),
       vs.foldl Min.min v,
       vs.foldl Max.max v,
       (v :: vs).length⟩

/-- `BakeBotAgent.get_performance_stats`: the stats snapshot over the four
metric lists, keyed by metric name in the source iteration order. -/
def get_performance_stats (m : PerfMetrics) : List (String × MetricStats) :=
  [("stt_latency", statsFor m.stt_latency),
   ("tts_latency", statsFor m.tts_latency),
   ("llm_latency", statsFor m.llm_latency),
   ("total_roundtrip", statsFor m.total_roundtrip)]

/-- One entry of the Gemini chat-history list built by
`generate_text_response` (`{"role": ..., "parts": [...]}`). -/
structure ChatEntry where
  role : String
  parts : List String
deriving DecidableEq

/-- The BakeBot system prompt from `GoogleAIService.__init__` (whitespace of
the Python triple-quoted literal normalized; its exact text is irrelevant to
every property proved below). -/
def system_prompt : String :=
  "You are BakeBot, a friendly and knowledgeable virtual sous chef. You help users with cooking questions, recipes, techniques, and food advice."

/-- Fallback reply of `generate_text_response` (its `except` branch). -/
def text_fallback : String :=
  "I\x27m having trouble thinking right now. Could you try asking me again?"

/-- Conversion of conversation history to Gemini chat history, from the loop
in `generate_text_response`: sender `user` maps to role `user`, anything else
to role `model`; parts is the singleton content. -/
def buildChatHistory (conversation_history : List Turn) : List ChatEntry :=
  conversation_history.map (fun msg =>
    ⟨if msg.sender = "user" then "user" else "model", [msg.content]⟩)

/-- `GoogleAIService.generate_text_response`. The external chat session
(`start_chat`, the two `send_message_async` calls) is the oracle argument,
taking the prepared chat history and the user message; `Except.error` models
any exception raised by the capability, absorbed into `text_fallback`. -/
def generate_text_response (oracle : List ChatEntry → String → Except Unit String)
    (message : String) (conversation_history : List Turn) : String :=
  match oracle (buildChatHistory conversation_history) message with
  | Except.ok t => t
  | Except.error _ => text_fallback

/-- Fallback reply of `analyze_image` (its `except` branch). -/
def image_fallback : String :=
  "I can see an image, but I\x27m having trouble analyzing it right now. Can you describe what you\x27d like to know about it?"

/-- Prompt assembly of `analyze_image` (the `if question / elif caption /
else` chain; Python truthiness of a string is non-emptiness). -/
def buildImagePrompt (caption question : String) : String :=
  if question ≠ "" then system_prompt ++ "\n\nUser question: " ++ question
  else if caption ≠ "" then
    system_prompt ++ "\n\nUser says: " ++ caption ++ "\n\nWhat can you tell me about this image?"
  else system_prompt ++ "\n\nWhat can you tell me about this cooking-related image?"

/-- `GoogleAIService.analyze_image`. `decodeImage` models
`base64.b64decode` plus `Image.open` (error = exception), `vision` models
`vision_model.generate_content_async`; any exception in the `try` block is
absorbed into `image_fallback`. -/
def analyze_image (decodeImage : String → Except Unit (List Nat))
    (vision : String → List Nat → Except Unit String)
    (image_data caption question : String) : String :=
  match decodeImage image_data with
  | Except.error _ => image_fallback
  | Except.ok img =>
      match vision (buildImagePrompt caption question) img with
      | Except.ok t => t
      | Except.error _ => image_fallback

/-- Split of a character list at every occurrence of the two-character
separator `". "`, scanning left to right on non-overlapping occurrences: the
semantics of Python `s.split(". ")`, specialized to the literal separator the
source uses so that it is structurally recursive (hence kernel-evaluable).
`acc` holds the reversed characters of the current piece. -/
def splitOnDotSpace (acc : List Char) : List Char → List (List Char)
  | [] => [acc.reverse]
  | '.' :: ' ' :: rest => acc.reverse :: splitOnDotSpace [] rest
  | c :: rest => splitOnDotSpace (c :: acc) rest

/-- Python `voice_response.split(". ")`. -/
def pySplit (s : String) : List String :=
  (splitOnDotSpace [] s.data).map (fun l => String.mk l)

/-- The fixed continuation text appended by `generate_voice_response`
(the string literal `". Would you like me to continue with more details?"`). -/
def continuation_suffix : String := ". Would you like me to continue with more details?"

/-- `GoogleAIService.generate_voice_response`: generates via
`generate_text_response` (same oracle) and reshapes the result for voice: if
it is longer than 500 characters and splits into more than 3 segments on
`". "`, keep the first 3 segments rejoined with `". "` plus the continuation
text; otherwise return it unmodified. (In this model the shaping code cannot
raise, so the `except` branch of the source is unreachable.) -/
def generate_voice_response (oracle : List ChatEntry → String → Except Unit String)
    (transcript : String) (conversation_history : List Turn) : String :=
  let text_response := generate_text_response oracle transcript conversation_history
  let voice_response := text_response
  if voice_response.length > 500 then
    let sentences := pySplit voice_response
    if sentences.length > 3 then
      String.intercalate ". " (sentences.take 3) ++ continuation_suffix
    else voice_response
  else voice_response

/-- One message of the voice-assistant chat context, from
`livekit.agents.llm.ChatMessage` as used by `BakeBotLLMAdapter.chat`. -/
structure ChatMessage where
  role : String
  content : String
deriving DecidableEq

/-- One entry of the conversation-history list the adapter builds
(`{"sender": ..., "content": ...}`, no timestamp). -/
structure AdapterTurn where
  sender : String
  content : String
deriving DecidableEq

/-- The conversion loop of `BakeBotLLMAdapter.chat`: `user` roles map to
sender `user`, `assistant` roles to sender `agent`, everything else is
skipped. -/
def convertMessages (messages : List ChatMessage) : List AdapterTurn :=
  messages.filterMap (fun msg =>
    if msg.role = "user" then some ⟨"user", msg.content⟩
    else if msg.role = "assistant" then some ⟨"agent", msg.content⟩
    else none)

/-- The `for msg in reversed(messages)` scan of `BakeBotLLMAdapter.chat`:
content of the last message with role `user`, or `""`. -/
def lastUserMessage (messages : List ChatMessage) : String :=
  ((messages.reverse.find? (fun msg => msg.role == "user")).map
    (fun msg => msg.content)).getD ""

/-- The pair of arguments `BakeBotLLMAdapter.chat` passes to
`generate_voice_response`: the last user message, and the converted
conversation history with its final element dropped
(`conversation_history[:-1]`). -/
def adapter_chat_args (messages : List ChatMessage) : String × List AdapterTurn :=
  (lastUserMessage messages, (convertMessages messages).dropLast)

/-- Mutable agent state touched by the data-channel handlers:
`session_config`, `conversation_history`, `_performance_metrics`, plus the
presence flags for `self.participant` and `self.voice_assistant` and whether
the voice assistant currently has synthesis in flight (the thing
`VoiceAssistant.cancel` stops). -/
structure AgentState where
  session_config : Option SessionConfig
  conversation_history : List Turn
  participant : Bool
  voice_assistant : Bool
  synthesis_open : Bool
  metrics : PerfMetrics
deriving DecidableEq

/-- External-effect environment for one handled message: the wall clock read
by `datetime.now().timestamp()`, and whether the awaited
`publish_data` / `VoiceAssistant.cancel` calls raise. -/
structure ExtEnv where
  now : Nat
  sendFails : Bool
  cancelFails : Bool
deriving DecidableEq

/-- Outbound message as observable on the wire: its type and payload (the
fresh `message_id` and timestamp of `_send_message` carry no information the
claims depend on). -/
structure OutMsg where
  type : MessageType
  payload : Payload
deriving DecidableEq

/-- Observable actions of a handler, in program order. -/
inductive Event
  | appendTurn (t : Turn)
  | generate (prompt : String) (history : List Turn)
  | generateImage (imageData : String) (caption : String)
  | setConfig (c : Option SessionConfig)
  | cancelSynthesis
  | reconfigure
  | send (m : OutMsg)
  | say (s : String)
deriving DecidableEq

/-- `BakeBotAgent._send_message`: returns without sending when no participant
is connected; otherwise publishes one envelope whose payload is the explicit
payload if supplied, else `{"content": content}`. `none` models the publish
call raising (`e.sendFails`), which aborts the calling handler. -/
def send_message (e : ExtEnv) (st : AgentState) (content : String)
    (mtype : MessageType) (payload? : Option Payload) : Option (List Event) :=
  if st.participant = false then some []
  else if e.sendFails = true then none
  else some [Event.send ⟨mtype, payload?.getD [("content", content)]⟩]

/-- `BakeBotAgent._handle_text_message`: drop empty content; append the user
turn; generate with the history slice `conversation_history[:-1]`; append the
agent turn; send; then, if a voice session is live, speak the reply. A raising
send aborts before the say. -/
def handle_text_message (gen : String → List Turn → String) (e : ExtEnv)
    (st : AgentState) (m : DataChannelMessage) : AgentState × List Event :=
  let content := pgetD m.payload "content" ""
  if content = "" then (st, [])
  else
    let u : Turn := ⟨"user", content, m.timestamp⟩
    let st1 : AgentState := { st with conversation_history := st.conversation_history ++ [u] }
    let response := gen content st1.conversation_history.dropLast
    let a : Turn := ⟨"agent", response, e.now⟩
    let st2 : AgentState := { st1 with conversation_history := st1.conversation_history ++ [a] }
    let sayEvs : List Event :=
      match st2.session_config with
      | some c =>
          if st2.voice_assistant = true ∧
              (c.session_type = SessionType.voicePtt ∨ c.session_type = SessionType.voiceVad)
          then [Event.say response] else []
      | none => []
    let tail : List Event :=
      match send_message e st2 response MessageType.text none with
      | none => []
      | some sendEvs => sendEvs ++ sayEvs
    (st2, [Event.appendTurn u,
           Event.generate content st1.conversation_history.dropLast,
           Event.appendTurn a] ++ tail)

/-- `BakeBotAgent._handle_image_message`: drop empty image data; append the
user turn (`"[Image] caption"` or `"[Image]"`); generate via `analyze_image`
(no history argument); append the agent turn; send. -/
def handle_image_message (gimg : String → String → String) (e : ExtEnv)
    (st : AgentState) (m : DataChannelMessage) : AgentState × List Event :=
  let image_data := pgetD m.payload "data" ""
  let caption := pgetD m.payload "caption" ""
  if image_data = "" then (st, [])
  else
    let u : Turn := ⟨"user",
      if caption = "" then "[Image]" else "[Image] " ++ caption, m.timestamp⟩
    let st1 : AgentState := { st with conversation_history := st.conversation_history ++ [u] }
    let response := gimg image_data caption
    let a : Turn := ⟨"agent", response, e.now⟩
    let st2 : AgentState := { st1 with conversation_history := st1.conversation_history ++ [a] }
    let tail : List Event :=
      match send_message e st2 response MessageType.text none with
      | none => []
      | some sendEvs => sendEvs
    (st2, [Event.appendTurn u,
           Event.generateImage image_data caption,
           Event.appendTurn a] ++ tail)

/-- `BakeBotAgent._handle_control_message`. `start_session`: build and install
a fresh `SessionConfig` (an invalid `session_type` raises `ValueError`, caught
upstream: no transition, no acknowledgment), reconfigure the voice assistant
for voice types, then send the `session_started` acknowledgment.
`end_session`: clear the config, then best-effort cancel (its exception is
swallowed by `except: pass`), then send the `session_ended` acknowledgment.
`interrupt`: cancel if the voice assistant exists (exception logged only);
no acknowledgment. Unknown actions fall through as no-ops. -/
def handle_control_message (e : ExtEnv) (st : AgentState)
    (m : DataChannelMessage) : AgentState × List Event :=
  let payload := m.payload
  if pget payload "action" = some "start_session" then
    match SessionType.fromString? (pgetD payload "session_type" "text") with
    | none => (st, [])
    | some sty =>
        let cfg : SessionConfig :=
          ⟨sty, pget payload "voice_mode",
           pgetD payload "user_id" "unknown",
           pgetD payload "turn_detection" "auto"⟩
        let st1 : AgentState := { st with session_config := some cfg }
        let reconf : List Event :=
          if st1.voice_assistant = true ∧
              (sty = SessionType.voicePtt ∨ sty = SessionType.voiceVad)
          then [Event.reconfigure] else []
        let tail : List Event :=
          match send_message e st1 "Session started! I\x27m ready to help."
              MessageType.control (some [("status", "session_started")]) with
          | none => []
          | some sendEvs => sendEvs
        (st1, [Event.setConfig (some cfg)] ++ reconf ++ tail)
  else if pget payload "action" = some "end_session" then
    let st1 : AgentState := { st with session_config := none }
    let cancelled : AgentState × List Event :=
      if st1.voice_assistant = true then
        if e.cancelFails = true then (st1, [])
        else ({ st1 with synthesis_open := false }, [Event.cancelSynthesis])
      else (st1, [])
    let tail : List Event :=
      match send_message e cancelled.1 "Session ended. Feel free to start a new one anytime!"
          MessageType.control (some [("status", "session_ended")]) with
      | none => []
      | some sendEvs => sendEvs
    (cancelled.1, [Event.setConfig none] ++ cancelled.2 ++ tail)
  else if pget payload "action" = some "interrupt" then
    if st.voice_assistant = true then
      if e.cancelFails = true then (st, [])
      else ({ st with synthesis_open := false }, [Event.cancelSynthesis])
    else (st, [])
  else (st, [])

/-- Post-decode dispatch by message type, from the `if`/`elif` chain of
`_handle_data_message`. -/
def dispatchMessage (gen : String → List Turn → String)
    (gimg : String → String → String) (e : ExtEnv)
    (st : AgentState) (m : DataChannelMessage) : AgentState × List Event :=
  match m.type with
  | MessageType.text => handle_text_message gen e st m
  | MessageType.image => handle_image_message gimg e st m
  | MessageType.control => handle_control_message e st m

/-- Raw inbound byte payload after the JSON step: either not a well-formed
structured document (`malformed`), or a map whose four envelope fields may
each be present or missing. -/
inductive Raw
  | malformed
  | object (type? : Option String) (payload? : Option Payload)
      (timestamp? : Option Nat) (messageId? : Option String)
deriving DecidableEq

/-- Decode stage of `_handle_data_message`: `json.loads` plus pydantic
validation of `DataChannelMessage(**message_dict)`; `none` models the raised
exception (malformed document, missing required field, unrecognized type). -/
def decode : Raw → Option DataChannelMessage
  | Raw.malformed => none
  | Raw.object type? payload? timestamp? messageId? =>
      match type?, payload?, timestamp?, messageId? with
      | some t, some p, some ts, some mid =>
          match MessageType.fromString? t with
          | some mt => some ⟨mt, p, ts, mid⟩
          | none => none
      | _, _, _, _ => none

/-- Claim-side description (spec section 4.1) of a malformed inbound payload:
not a well-formed structured document, or missing one of the four required
envelope fields, or carrying a `type` outside the three recognized kinds.
Stated independently of `decode` so that the drop theorem relates the claim
wording to the code. -/
def ClaimMalformed : Raw → Prop
  | Raw.malformed => True
  | Raw.object type? payload? timestamp? messageId? =>
      type? = none ∨ payload? = none ∨ timestamp? = none ∨ messageId? = none ∨
      ∃ s, type? = some s ∧ s ≠ "text" ∧ s ≠ "image" ∧ s ≠ "control"

/-- `BakeBotAgent._handle_data_message`: decode, then dispatch; any decode
failure is caught by the surrounding `try`/`except`, dropping the message with
no state change and no outbound traffic. -/
def handle_data_message (gen : String → List Turn → String)
    (gimg : String → String → String) (e : ExtEnv)
    (st : AgentState) (raw : Raw) : AgentState × List Event :=
  match decode raw with
  | none => (st, [])
  | some m => dispatchMessage gen gimg e st m

/-- One inbound arrival: a decoded envelope together with the external-effect
environment in force while it is handled. -/
structure Arrival where
  msg : DataChannelMessage
  ext : ExtEnv
deriving DecidableEq

/-- Serial handling of a sequence of arrivals (one `_handle_data_message` task
completing before the next starts). -/
def runArrivals (gen : String → List Turn → String)
    (gimg : String → String → String) :
    AgentState → List Arrival → AgentState
  | st, [] => st
  | st, a :: rest =>
      runArrivals gen gimg (dispatchMessage gen gimg a.ext st a.msg).1 rest

/-- An arrival that the text/image paths actually process: a text message with
non-empty content, or an image message with non-empty data. -/
def GoodTI (a : Arrival) : Prop :=
  (a.msg.type = MessageType.text ∧ pgetD a.msg.payload "content" "" ≠ "") ∨
  (a.msg.type = MessageType.image ∧ pgetD a.msg.payload "data" "" ≠ "")

/-- The user turn a text/image message appends. -/
def userTurnOf (m : DataChannelMessage) : Turn :=
  match m.type with
  | MessageType.image =>
      ⟨"user",
       if pgetD m.payload "caption" "" = "" then "[Image]"
       else "[Image] " ++ pgetD m.payload "caption" "",
       m.timestamp⟩
  | _ => ⟨"user", pgetD m.payload "content" "", m.timestamp⟩

/-- The reply content generated for a text/image message when the history
before its user turn is `hist`. -/
def agentContentOf (gen : String → List Turn → String)
    (gimg : String → String → String)
    (hist : List Turn) (m : DataChannelMessage) : String :=
  match m.type with
  | MessageType.image => gimg (pgetD m.payload "data" "") (pgetD m.payload "caption" "")
  | _ => gen (pgetD m.payload "content" "") hist

/-- The agent turn appended for one arrival, given the history before its user
turn. -/
def agentTurnOf (gen : String → List Turn → String)
    (gimg : String → String → String)
    (hist : List Turn) (a : Arrival) : Turn :=
  ⟨"agent", agentContentOf gen gimg hist a.msg, a.ext.now⟩

/-- The generation-request event recorded for one text/image message, given
the history slice in force at the request. -/
def genEventOf (hist : List Turn) (m : DataChannelMessage) : Event :=
  match m.type with
  | MessageType.image =>
      Event.generateImage (pgetD m.payload "data" "") (pgetD m.payload "caption" "")
  | _ => Event.generate (pgetD m.payload "content" "") hist

/-- The interleaving `[user 1, agent 1, user 2, agent 2, ...]` that the spec
predicts for a serially handled arrival sequence, starting from history
`hist`. This definition follows the words of the spec (section 8, history
ordering); the theorems below relate it to the code model. -/
def interleaveSpec (gen : String → List Turn → String)
    (gimg : String → String → String) :
    List Turn → List Arrival → List Turn
  | _, [] => []
  | hist, a :: rest =>
      let u := userTurnOf a.msg
      let ag := agentTurnOf gen gimg hist a
      u :: ag :: interleaveSpec gen gimg (hist ++ [u, ag]) rest

/-- Whether an event is an outbound send. -/
def Event.isSend : Event → Bool
  | Event.send _ => true
  | _ => false

/-- The outbound sends of a trace, in order. -/
def sends (tr : List Event) : List Event := tr.filter Event.isSend

/-- Whether an event is participant-visible output (a send or spoken reply). -/
def Event.isOutput : Event → Prop := fun ev =>
  (∃ om, ev = Event.send om) ∨ (∃ s, ev = Event.say s)

/-- Every occurrence of `ack` in the trace is preceded by an occurrence of
`transition`: the acknowledgment is emitted only after the transition. -/
def ackedAfter (transition ack : Event) (tr : List Event) : Prop :=
  ∀ j, tr.get? j = some ack → ∃ i, i < j ∧ tr.get? i = some transition

/-- A 120-character sentence segment (no `". "` inside), witness material. -/
def longSeg : String := String.mk (List.replicate 120 'a')

/-- A 608-character reply with five `". "`-separated segments, witness
material for the truncating branch of the voice reshaping. -/
def longReply : String :=
  longSeg ++ ". " ++ longSeg ++ ". " ++ longSeg ++ ". " ++ longSeg ++ ". " ++ longSeg

/-- A 501-character reply with no `". "` occurrence (a single segment),
witness material for the long-but-few-segments branch. -/
def longNoSep : String := String.mk (List.replicate 501 'b')

/-- C2: for every generated reply, the voice-path reshaping of
`generate_voice_response` returns a reply of at most 500 characters
unmodified; returns a longer reply with at most 3 segments on the literal
delimiter `". "` unmodified; and returns a longer reply with more than 3 such
segments as exactly the first 3 segments rejoined with `". "` followed by the
fixed continuation text `". Would you like me to continue with more
details?"`. -/
theorem c2_voice_truncation (s transcript : String) (hist : List Turn) :
    (s.length ≤ 500 →
      generate_voice_response (fun _ _ => Except.ok s) transcript hist = s) ∧
    (s.length > 500 → (pySplit s).length ≤ 3 →
      generate_voice_response (fun _ _ => Except.ok s) transcript hist = s) ∧
    (s.length > 500 → (pySplit s).length > 3 →
      generate_voice_response (fun _ _ => Except.ok s) transcript hist
        = String.intercalate ". " ((pySplit s).take 3) ++ continuation_suffix) := by
  have hg : generate_voice_response (fun _ _ => Except.ok s) transcript hist
      = if s.length > 500 then
          (if (pySplit s).length > 3 then
            String.intercalate ". " ((pySplit s).take 3) ++ continuation_suffix
          else s)
        else s := rfl
  refine ⟨?_, ?_, ?_⟩
  · intro h1
    rw [hg, if_neg (by omega)]
  · intro h1 h2
    rw [hg, if_pos h1, if_neg (by omega)]
  · intro h1 h2
    rw [hg, if_pos h1, if_pos h2]

/-- Witness for C2, one concrete reply per branch: a short reply is returned
unmodified; a 501-character single-segment reply is returned unmodified; the
608-character five-segment reply is truncated to its first three segments plus
the continuation text. -/
theorem c2_voice_truncation_witness :
    generate_voice_response (fun _ _ => Except.ok "Use fresh yeast.") "t" []
        = "Use fresh yeast."
    ∧ generate_voice_response (fun _ _ => Except.ok longNoSep) "t" [] = longNoSep
    ∧ generate_voice_response (fun _ _ => Except.ok longReply) "t" []
        = String.intercalate ". " ((pySplit longReply).take 3) ++ continuation_suffix :=
  ⟨(c2_voice_truncation "Use fresh yeast." "t" []).1 (by decide),
   (c2_voice_truncation longNoSep "t" []).2.1 (by decide) (by decide),
   (c2_voice_truncation longReply "t" []).2.2 (by decide) (by decide)⟩

/-- C7: any failure of the external generation capability is absorbed at the
call site: if the chat capability raises, `generate_text_response` returns its
fixed fallback string; if the vision capability raises (or the image fails to
decode), `analyze_image` returns its fixed fallback string. No failure
propagates out of either call. -/
theorem c7_generation_fallback :
    (∀ (oracle : List ChatEntry → String → Except Unit String)
        (message : String) (hist : List Turn),
      oracle (buildChatHistory hist) message = Except.error () →
      generate_text_response oracle message hist = text_fallback) ∧
    (∀ (decodeImage : String → Except Unit (List Nat))
        (vision : String → List Nat → Except Unit String)
        (image_data caption question : String) (img : List Nat),
      decodeImage image_data = Except.ok img →
      vision (buildImagePrompt caption question) img = Except.error () →
      analyze_image decodeImage vision image_data caption question = image_fallback) ∧
    (∀ (decodeImage : String → Except Unit (List Nat))
        (vision : String → List Nat → Except Unit String)
        (image_data caption question : String),
      decodeImage image_data = Except.error () →
      analyze_image decodeImage vision image_data caption question = image_fallback) := by
  refine ⟨?_, ?_, ?_⟩
  · intro oracle message hist h
    simp [generate_text_response, h]
  · intro decodeImage vision image_data caption question img h1 h2
    simp [analyze_image, h1, h2]
  · intro decodeImage vision image_data caption question h
    simp [analyze_image, h]

/-- Witness for C7 at concrete failing oracles. -/
theorem c7_generation_fallback_witness :
    generate_text_response (fun _ _ => Except.error ()) "hi" [] = text_fallback
    ∧ analyze_image (fun _ => Except.ok [0]) (fun _ _ => Except.error ())
        "imgdata" "caption" "" = image_fallback :=
  ⟨c7_generation_fallback.1 (fun _ _ => Except.error ()) "hi" [] rfl,
   c7_generation_fallback.2.1 (fun _ => Except.ok [0]) (fun _ _ => Except.error ())
     "imgdata" "caption" "" [0] rfl rfl⟩

/-- C9: a metric with zero samples always snapshots as
`avg = 0, min = 0, max = 0, count = 0` (the empty branch of `statsFor` returns
the constants directly, performing no division, `min` or `max` over the empty
list), and on a freshly created agent every one of the four metrics snapshots
that way. -/
theorem c9_telemetry_zero_state :
    (∀ values : List ℚ, values = [] → statsFor values = ⟨0, 0, 0, 0⟩) ∧
    (∀ (name : String) (s : MetricStats),
      (name, s) ∈ get_performance_stats initialMetrics → s = ⟨0, 0, 0, 0⟩) := by
  constructor
  · intro values h
    subst h
    rfl
  · intro name s h
    simp [get_performance_stats, initialMetrics, statsFor, Prod.ext_iff] at h
    rcases h with ⟨_, h⟩ | ⟨_, h⟩ | ⟨_, h⟩ | ⟨_, h⟩ <;> exact h

/-- Witness for C9: the empty sample list, and the stt metric of the fresh
agent, both snapshot to all zeros. -/
theorem c9_telemetry_zero_state_witness :
    statsFor ([] : List ℚ) = ⟨0, 0, 0, 0⟩
    ∧ statsFor initialMetrics.stt_latency = ⟨0, 0, 0, 0⟩ :=
  ⟨c9_telemetry_zero_state.1 [] rfl,
   c9_telemetry_zero_state.2 "stt_latency" (statsFor initialMetrics.stt_latency)
     (List.mem_cons_self _ _)⟩

/-- C4: every inbound byte payload that is not a well-formed structured
document, or is missing one of the four envelope fields, or carries an
unrecognized `type`, fails to decode and is dropped with no dispatch: the
agent state (history, config, metrics) is returned unchanged and no event —
in particular no outbound send — is produced. -/
theorem c4_malformed_dropped (gen : String → List Turn → String)
    (gimg : String → String → String) (e : ExtEnv) (st : AgentState)
    (raw : Raw) (h : ClaimMalformed raw) :
    handle_data_message gen gimg e st raw = (st, []) := by
  have hdec : decode raw = none := by
    cases raw with
    | malformed => rfl
    | object type? payload? timestamp? messageId? =>
        rcases h with h | h | h | h | ⟨s, hs, h1, h2, h3⟩
        · subst h
          rcases payload? <;> rcases timestamp? <;> rcases messageId? <;> rfl
        · subst h
          rcases type? <;> rcases timestamp? <;> rcases messageId? <;> rfl
        · subst h
          rcases type? <;> rcases payload? <;> rcases messageId? <;> rfl
        · subst h
          rcases type? <;> rcases payload? <;> rcases timestamp? <;> rfl
        · subst hs
          have hft : MessageType.fromString? s = none := by
            unfold MessageType.fromString?
            split <;> simp_all
          rcases payload? <;> rcases timestamp? <;> rcases messageId? <;>
            simp [decode, hft]
  simp [handle_data_message, hdec]

/-- Witness for C4 at three concrete malformed inputs: an unparseable
document, an envelope missing its payload field, and an envelope with an
unrecognized type. -/
theorem c4_malformed_dropped_witness :
    handle_data_message (fun _ _ => "r") (fun _ _ => "r") ⟨3, false, false⟩
        ⟨none, [], true, true, false, initialMetrics⟩ Raw.malformed
      = (⟨none, [], true, true, false, initialMetrics⟩, [])
    ∧ handle_data_message (fun _ _ => "r") (fun _ _ => "r") ⟨3, false, false⟩
        ⟨none, [], true, true, false, initialMetrics⟩
        (Raw.object (some "text") none (some 0) (some "m1"))
      = (⟨none, [], true, true, false, initialMetrics⟩, [])
    ∧ handle_data_message (fun _ _ => "r") (fun _ _ => "r") ⟨3, false, false⟩
        ⟨none, [], true, true, false, initialMetrics⟩
        (Raw.object (some "audio") (some []) (some 0) (some "m2"))
      = (⟨none, [], true, true, false, initialMetrics⟩, []) :=
  ⟨c4_malformed_dropped _ _ _ _ Raw.malformed trivial,
   c4_malformed_dropped _ _ _ _ _ (Or.inr (Or.inl rfl)),
   c4_malformed_dropped _ _ _ _ _
     (Or.inr (Or.inr (Or.inr (Or.inr ⟨"audio", rfl, by decide, by decide, by decide⟩))))⟩

/-- C10: a text message whose payload `content` is missing or empty, and an
image message whose payload `data` is missing or empty, are silent no-ops:
the state is unchanged and no event (no history append, no generation
request, no outbound send) is produced. -/
theorem c10_empty_content_noop (gen : String → List Turn → String)
    (gimg : String → String → String) (e : ExtEnv) (st : AgentState)
    (m : DataChannelMessage) :
    (m.type = MessageType.text →
      (pget m.payload "content" = none ∨ pget m.payload "content" = some "") →
      dispatchMessage gen gimg e st m = (st, [])) ∧
    (m.type = MessageType.image →
      (pget m.payload "data" = none ∨ pget m.payload "data" = some "") →
      dispatchMessage gen gimg e st m = (st, [])) := by
  constructor
  · intro ht h
    have hc : pgetD m.payload "content" "" = "" := by
      unfold pgetD
      unfold pget at h
      rcases h with h | h <;> rw [h] <;> rfl
    simp [dispatchMessage, ht, handle_text_message, hc]
  · intro ht h
    have hd : pgetD m.payload "data" "" = "" := by
      unfold pgetD
      unfold pget at h
      rcases h with h | h <;> rw [h] <;> rfl
    simp [dispatchMessage, ht, handle_image_message, hd]

/-- Witness for C10: a text message with no content key and an image message
whose data is the empty string are both dropped without effect. -/
theorem c10_empty_content_noop_witness :
    dispatchMessage (fun _ _ => "r") (fun _ _ => "r") ⟨3, false, false⟩
        ⟨none, [], true, true, false, initialMetrics⟩
        ⟨MessageType.text, [], 0, "m1"⟩
      = (⟨none, [], true, true, false, initialMetrics⟩, [])
    ∧ dispatchMessage (fun _ _ => "r") (fun _ _ => "r") ⟨3, false, false⟩
        ⟨none, [], true, true, false, initialMetrics⟩
        ⟨MessageType.image, [("data", ""), ("caption", "c")], 0, "m2"⟩
      = (⟨none, [], true, true, false, initialMetrics⟩, []) :=
  ⟨(c10_empty_content_noop _ _ _ _ _).1 rfl (Or.inl rfl),
   (c10_empty_content_noop _ _ _ _ _).2 rfl (Or.inr rfl)⟩

/-- C5: every generation request issued while handling an inbound message
excludes the in-flight turn. On the text path the handler appends the user
turn and then passes the slice `conversation_history[:-1]`, which equals the
history from before that append. On the voice path the adapter passes the
converted message list with its last element dropped, which, when the last
chat message is the user turn being answered, equals the conversion of the
earlier messages only. (The image path passes no history at all.) -/
theorem c5_history_slice_excludes_inflight :
    (∀ (gen : String → List Turn → String) (e : ExtEnv) (st : AgentState)
        (m : DataChannelMessage),
      pgetD m.payload "content" "" ≠ "" →
      (handle_text_message gen e st m).2.get? 0
          = some (Event.appendTurn ⟨"user", pgetD m.payload "content" "", m.timestamp⟩)
        ∧ (handle_text_message gen e st m).2.get? 1
            = some (Event.generate (pgetD m.payload "content" "") st.conversation_history)
        ∧ (st.conversation_history
            ++ [(⟨"user", pgetD m.payload "content" "", m.timestamp⟩ : Turn)]).dropLast
          = st.conversation_history) ∧
    (∀ (messages : List ChatMessage) (msg : ChatMessage),
      msg.role = "user" →
      adapter_chat_args (messages ++ [msg]) = (msg.content, convertMessages messages)) := by
  constructor
  · intro gen e st m h
    refine ⟨?_, ?_, List.dropLast_concat⟩
    · simp [handle_text_message, h]
    · simp [handle_text_message, h, List.dropLast_concat]
  · intro messages msg hrole
    unfold adapter_chat_args
    have h1 : lastUserMessage (messages ++ [msg]) = msg.content := by
      unfold lastUserMessage
      simp [List.find?, hrole]
    have h2 : convertMessages (messages ++ [msg])
        = convertMessages messages ++ [⟨"user", msg.content⟩] := by
      unfold convertMessages
      rw [List.filterMap_append]
      simp [hrole]
    rw [h1, h2, List.dropLast_concat]

/-- Witness for C5: a concrete text message and a concrete adapter call. -/
theorem c5_history_slice_excludes_inflight_witness :
    (handle_text_message (fun _ _ => "r") ⟨3, false, false⟩
        ⟨none, [⟨"user", "old", 0⟩, ⟨"agent", "olda", 1⟩], true, true, false, initialMetrics⟩
        ⟨MessageType.text, [("content", "hi")], 2, "m1"⟩).2.get? 1
      = some (Event.generate "hi" [⟨"user", "old", 0⟩, ⟨"agent", "olda", 1⟩])
    ∧ adapter_chat_args [⟨"system", "s"⟩, ⟨"assistant", "a"⟩, ⟨"user", "q"⟩]
      = ("q", convertMessages [⟨"system", "s"⟩, ⟨"assistant", "a"⟩]) :=
  ⟨((c5_history_slice_excludes_inflight.1 (fun _ _ => "r") ⟨3, false, false⟩
      ⟨none, [⟨"user", "old", 0⟩, ⟨"agent", "olda", 1⟩], true, true, false, initialMetrics⟩
      ⟨MessageType.text, [("content", "hi")], 2, "m1"⟩) (by decide)).2.1,
   c5_history_slice_excludes_inflight.2 [⟨"system", "s"⟩, ⟨"assistant", "a"⟩]
     ⟨"user", "q"⟩ rfl⟩

/-- C3: with a participant connected and the outbound publish not raising,
a `start_session` control action (with a recognizable session type) emits
exactly one outbound message, the control acknowledgment with payload
`{"status": "session_started"}`, and only after the new config is installed;
an `end_session` action emits exactly one outbound message, the
acknowledgment `{"status": "session_ended"}`, and only after the config is
cleared; an `interrupt` action emits no outbound message at all. -/
theorem c3_control_acknowledgments (e : ExtEnv) (st : AgentState)
    (m : DataChannelMessage) (_hty : m.type = MessageType.control)
    (hp : st.participant = true) (hsf : e.sendFails = false) :
    (∀ sty, pget m.payload "action" = some "start_session" →
      SessionType.fromString? (pgetD m.payload "session_type" "text") = some sty →
      sends (handle_control_message e st m).2
          = [Event.send ⟨MessageType.control, [("status", "session_started")]⟩]
        ∧ (handle_control_message e st m).1.session_config
            = some ⟨sty, pget m.payload "voice_mode",
                    pgetD m.payload "user_id" "unknown",
                    pgetD m.payload "turn_detection" "auto"⟩
        ∧ ackedAfter
            (Event.setConfig (some ⟨sty, pget m.payload "voice_mode",
                pgetD m.payload "user_id" "unknown",
                pgetD m.payload "turn_detection" "auto"⟩))
            (Event.send ⟨MessageType.control, [("status", "session_started")]⟩)
            (handle_control_message e st m).2) ∧
    (pget m.payload "action" = some "end_session" →
      sends (handle_control_message e st m).2
          = [Event.send ⟨MessageType.control, [("status", "session_ended")]⟩]
        ∧ (handle_control_message e st m).1.session_config = none
        ∧ ackedAfter (Event.setConfig none)
            (Event.send ⟨MessageType.control, [("status", "session_ended")]⟩)
            (handle_control_message e st m).2) ∧
    (pget m.payload "action" = some "interrupt" →
      sends (handle_control_message e st m).2 = []) := by
  refine ⟨?_, ?_, ?_⟩
  · intro sty hact hsty
    by_cases hva : st.voice_assistant = true ∧
        (sty = SessionType.voicePtt ∨ sty = SessionType.voiceVad)
    · have key : handle_control_message e st m
          = ({ st with session_config := some ⟨sty, pget m.payload "voice_mode",
                  pgetD m.payload "user_id" "unknown",
                  pgetD m.payload "turn_detection" "auto"⟩ },
             [Event.setConfig (some ⟨sty, pget m.payload "voice_mode",
                  pgetD m.payload "user_id" "unknown",
                  pgetD m.payload "turn_detection" "auto"⟩),
              Event.reconfigure,
              Event.send ⟨MessageType.control, [("status", "session_started")]⟩]) := by
        simp [handle_control_message, hact, hsty, send_message, hp, hsf, hva]
      rw [key]
      refine ⟨rfl, rfl, ?_⟩
      intro j hj
      refine ⟨0, ?_, rfl⟩
      rcases j with _ | _ | j
      · simp at hj
      · simp at hj
      · omega
    · have key : handle_control_message e st m
          = ({ st with session_config := some ⟨sty, pget m.payload "voice_mode",
                  pgetD m.payload "user_id" "unknown",
                  pgetD m.payload "turn_detection" "auto"⟩ },
             [Event.setConfig (some ⟨sty, pget m.payload "voice_mode",
                  pgetD m.payload "user_id" "unknown",
                  pgetD m.payload "turn_detection" "auto"⟩),
              Event.send ⟨MessageType.control, [("status", "session_started")]⟩]) := by
        simp [handle_control_message, hact, hsty, send_message, hp, hsf, hva]
      rw [key]
      refine ⟨rfl, rfl, ?_⟩
      intro j hj
      refine ⟨0, ?_, rfl⟩
      rcases j with _ | j
      · simp at hj
      · omega
  · intro hact
    by_cases hva : st.voice_assistant = true
    · by_cases hcf : e.cancelFails = true
      · have key : handle_control_message e st m
            = ({ st with session_config := none },
               [Event.setConfig none,
                Event.send ⟨MessageType.control, [("status", "session_ended")]⟩]) := by
          simp [handle_control_message, hact, send_message, hp, hsf, hva, hcf]
        rw [key]
        refine ⟨rfl, rfl, ?_⟩
        intro j hj
        refine ⟨0, ?_, rfl⟩
        rcases j with _ | j
        · simp at hj
        · omega
      · have key : handle_control_message e st m
            = ({ st with session_config := none, synthesis_open := false },
               [Event.setConfig none, Event.cancelSynthesis,
                Event.send ⟨MessageType.control, [("status", "session_ended")]⟩]) := by
          simp [handle_control_message, hact, send_message, hp, hsf, hva, hcf]
        rw [key]
        refine ⟨rfl, rfl, ?_⟩
        intro j hj
        refine ⟨0, ?_, rfl⟩
        rcases j with _ | _ | j
        · simp at hj
        · simp at hj
        · omega
    · have key : handle_control_message e st m
          = ({ st with session_config := none },
             [Event.setConfig none,
              Event.send ⟨MessageType.control, [("status", "session_ended")]⟩]) := by
        simp [handle_control_message, hact, send_message, hp, hsf, hva]
      rw [key]
      refine ⟨rfl, rfl, ?_⟩
      intro j hj
      refine ⟨0, ?_, rfl⟩
      rcases j with _ | j
      · simp at hj
      · omega
  · intro hact
    by_cases hva : st.voice_assistant = true
    · by_cases hcf : e.cancelFails = true
      · have key : handle_control_message e st m = (st, []) := by
          simp [handle_control_message, hact, hva, hcf]
        rw [key]
        rfl
      · have key : handle_control_message e st m
            = ({ st with synthesis_open := false }, [Event.cancelSynthesis]) := by
          simp [handle_control_message, hact, hva, hcf]
        rw [key]
        rfl
    · have key : handle_control_message e st m = (st, []) := by
        simp [handle_control_message, hact, hva]
      rw [key]
      rfl

/-- Witness for C3 at a concrete `start_session` control message. -/
theorem c3_control_acknowledgments_witness :
    sends (handle_control_message ⟨0, false, false⟩
        ⟨none, [], true, true, false, initialMetrics⟩
        ⟨MessageType.control,
         [("action", "start_session"), ("session_type", "voice-vad"), ("user_id", "u1")],
         0, "m1"⟩).2
      = [Event.send ⟨MessageType.control, [("status", "session_started")]⟩] :=
  ((c3_control_acknowledgments ⟨0, false, false⟩
      ⟨none, [], true, true, false, initialMetrics⟩
      ⟨MessageType.control,
       [("action", "start_session"), ("session_type", "voice-vad"), ("user_id", "u1")],
       0, "m1"⟩ rfl rfl rfl).1 SessionType.voiceVad rfl rfl).1

/-- Counterexample for C6 as stated: on `end_session` with a synthesis
session open, the code clears `session_config` first (trace index 0) and only
then cancels synthesis (trace index 1), so the cancellation does NOT precede
the transition: `ackedAfter cancelSynthesis (setConfig none)` — every
config-clear preceded by a cancel, which is what "cancelled first, before the
transition" asserts — fails on this concrete run. -/
theorem c6_counterexample :
    (handle_control_message ⟨0, false, false⟩
        ⟨some ⟨SessionType.voiceVad, none, "u1", "auto"⟩, [], true, true, true,
         initialMetrics⟩
        ⟨MessageType.control, [("action", "end_session")], 0, "m1"⟩).2
      = [Event.setConfig none, Event.cancelSynthesis,
         Event.send ⟨MessageType.control, [("status", "session_ended")]⟩]
    ∧ ¬ ackedAfter Event.cancelSynthesis (Event.setConfig none)
        (handle_control_message ⟨0, false, false⟩
          ⟨some ⟨SessionType.voiceVad, none, "u1", "auto"⟩, [], true, true, true,
           initialMetrics⟩
          ⟨MessageType.control, [("action", "end_session")], 0, "m1"⟩).2 := by
  constructor
  · rfl
  · intro hpre
    obtain ⟨i, hi, _⟩ := hpre 0 rfl
    exact absurd hi (Nat.not_lt_zero i)

/-- C6 amended: on `end_session` the session transitions to the no-session
state; if the voice assistant is present the open synthesis is cancelled
immediately AFTER the config is cleared (not before) and before the
acknowledgment; and any failure raised by the cancellation is swallowed, so
the transition and the `session_ended` acknowledgment still complete. -/
theorem c6_end_session (e : ExtEnv) (st : AgentState) (m : DataChannelMessage)
    (_hty : m.type = MessageType.control)
    (hact : pget m.payload "action" = some "end_session") :
    (handle_control_message e st m).1.session_config = none
    ∧ (handle_control_message e st m).2.get? 0 = some (Event.setConfig none)
    ∧ (st.voice_assistant = true → e.cancelFails = false →
        (handle_control_message e st m).2.get? 1 = some Event.cancelSynthesis
        ∧ (handle_control_message e st m).1.synthesis_open = false)
    ∧ (st.participant = true → e.sendFails = false →
        sends (handle_control_message e st m).2
          = [Event.send ⟨MessageType.control, [("status", "session_ended")]⟩]) := by
  by_cases hva : st.voice_assistant = true
  · by_cases hcf : e.cancelFails = true
    · refine ⟨?_, ?_, ?_, ?_⟩
      · simp [handle_control_message, hact, hva, hcf, send_message]
      · simp [handle_control_message, hact, hva, hcf, send_message]
      · intro _ hcf2
        exact absurd hcf (by simp [hcf2])
      · intro hp hsf
        simp [handle_control_message, hact, hva, hcf, send_message, hp, hsf, sends,
          Event.isSend]
    · refine ⟨?_, ?_, ?_, ?_⟩
      · simp [handle_control_message, hact, hva, hcf, send_message]
      · simp [handle_control_message, hact, hva, hcf, send_message]
      · intro _ _
        constructor
        · simp [handle_control_message, hact, hva, hcf, send_message]
        · simp [handle_control_message, hact, hva, hcf, send_message]
      · intro hp hsf
        simp [handle_control_message, hact, hva, hcf, send_message, hp, hsf, sends,
          Event.isSend]
  · refine ⟨?_, ?_, ?_, ?_⟩
    · simp [handle_control_message, hact, hva, send_message]
    · simp [handle_control_message, hact, hva, send_message]
    · intro hva2 _
      exact absurd hva2 hva
    · intro hp hsf
      simp [handle_control_message, hact, hva, send_message, hp, hsf, sends,
        Event.isSend]

/-- Witness for the amended C6 at a concrete `end_session` message with a
synthesis session open. -/
theorem c6_end_session_witness :
    (handle_control_message ⟨0, false, false⟩
        ⟨some ⟨SessionType.voiceVad, none, "u1", "auto"⟩, [], true, true, true,
         initialMetrics⟩
        ⟨MessageType.control, [("action", "end_session")], 0, "m3"⟩).1.session_config
      = none
    ∧ sends (handle_control_message ⟨0, false, false⟩
        ⟨some ⟨SessionType.voiceVad, none, "u1", "auto"⟩, [], true, true, true,
         initialMetrics⟩
        ⟨MessageType.control, [("action", "end_session")], 0, "m3"⟩).2
      = [Event.send ⟨MessageType.control, [("status", "session_ended")]⟩] :=
  ⟨(c6_end_session ⟨0, false, false⟩
      ⟨some ⟨SessionType.voiceVad, none, "u1", "auto"⟩, [], true, true, true,
       initialMetrics⟩
      ⟨MessageType.control, [("action", "end_session")], 0, "m3"⟩ rfl rfl).1,
   (c6_end_session ⟨0, false, false⟩
      ⟨some ⟨SessionType.voiceVad, none, "u1", "auto"⟩, [], true, true, true,
       initialMetrics⟩
      ⟨MessageType.control, [("action", "end_session")], 0, "m3"⟩ rfl rfl).2.2.2 rfl rfl⟩

/-- Counterexample for C8 as stated: the code guards `interrupt` only on the
existence of the voice assistant, not on a session being Active. Here no
session is active (`session_config = none`) yet the interrupt is acted on:
the open synthesis is cancelled (the trace is exactly the cancellation). -/
theorem c8_counterexample :
    (handle_control_message ⟨0, false, false⟩
        ⟨none, [], true, true, true, initialMetrics⟩
        ⟨MessageType.control, [("action", "interrupt")], 0, "m4"⟩).2
      = [Event.cancelSynthesis]
    ∧ ((⟨none, [], true, true, true, initialMetrics⟩ : AgentState).session_config
        = none) :=
  ⟨rfl, rfl⟩

/-- C8 amended: the `interrupt` control action is acted on whenever the voice
assistant exists, regardless of whether a session is Active; when the
cancellation succeeds it cancels any open synthesis; and in every case —
voice assistant or not, cancellation failing or not — it leaves the session
config, the conversation history and the metrics unchanged and emits no
outbound message. -/
theorem c8_interrupt (e : ExtEnv) (st : AgentState) (m : DataChannelMessage)
    (_hty : m.type = MessageType.control)
    (hact : pget m.payload "action" = some "interrupt") :
    (handle_control_message e st m).1.session_config = st.session_config
    ∧ (handle_control_message e st m).1.conversation_history = st.conversation_history
    ∧ (handle_control_message e st m).1.metrics = st.metrics
    ∧ sends (handle_control_message e st m).2 = []
    ∧ (st.voice_assistant = false → handle_control_message e st m = (st, []))
    ∧ (st.voice_assistant = true → e.cancelFails = false →
        (handle_control_message e st m).1.synthesis_open = false
        ∧ (handle_control_message e st m).2 = [Event.cancelSynthesis]) := by
  by_cases hva : st.voice_assistant = true
  · by_cases hcf : e.cancelFails = true
    · have key : handle_control_message e st m = (st, []) := by
        simp [handle_control_message, hact, hva, hcf]
      rw [key]
      exact ⟨rfl, rfl, rfl, rfl, fun _ => rfl,
        fun _ hcf2 => absurd hcf (by simp [hcf2])⟩
    · have key : handle_control_message e st m
          = ({ st with synthesis_open := false }, [Event.cancelSynthesis]) := by
        simp [handle_control_message, hact, hva, hcf]
      rw [key]
      exact ⟨rfl, rfl, rfl, rfl,
        fun h => by rw [h] at hva; exact Bool.noConfusion hva,
        fun _ _ => ⟨rfl, rfl⟩⟩
  · have key : handle_control_message e st m = (st, []) := by
      simp [handle_control_message, hact, hva]
    rw [key]
    exact ⟨rfl, rfl, rfl, rfl, fun _ => rfl, fun h _ => absurd h hva⟩

/-- Witness for the amended C8 at a concrete interrupt with no active
session. -/
theorem c8_interrupt_witness :
    (handle_control_message ⟨0, false, false⟩
        ⟨none, [], true, true, true, initialMetrics⟩
        ⟨MessageType.control, [("action", "interrupt")], 0, "m5"⟩).1.session_config
      = none
    ∧ (handle_control_message ⟨0, false, false⟩
        ⟨none, [], true, true, true, initialMetrics⟩
        ⟨MessageType.control, [("action", "interrupt")], 0, "m5"⟩).1.synthesis_open
      = false :=
  ⟨(c8_interrupt ⟨0, false, false⟩ ⟨none, [], true, true, true, initialMetrics⟩
      ⟨MessageType.control, [("action", "interrupt")], 0, "m5"⟩ rfl rfl).1,
   ((c8_interrupt ⟨0, false, false⟩ ⟨none, [], true, true, true, initialMetrics⟩
      ⟨MessageType.control, [("action", "interrupt")], 0, "m5"⟩ rfl rfl).2.2.2.2.2
      rfl rfl).1⟩

/-- Outcomes of `send_message`: no participant (no send, control returns),
publish raising (handler aborts), or exactly one send event. -/
theorem send_message_cases (e : ExtEnv) (st : AgentState) (c : String)
    (mt : MessageType) (p? : Option Payload) :
    send_message e st c mt p? = some []
    ∨ send_message e st c mt p? = none
    ∨ ∃ om, send_message e st c mt p? = some [Event.send om] := by
  unfold send_message
  split_ifs
  · exact Or.inl rfl
  · exact Or.inr (Or.inl rfl)
  · exact Or.inr (Or.inr ⟨_, rfl⟩)

/-- With a participant connected and the publish raising, `send_message`
aborts the caller. -/
theorem send_message_fail (e : ExtEnv) (st : AgentState) (c : String)
    (mt : MessageType) (p? : Option Payload)
    (hp : st.participant = true) (hsf : e.sendFails = true) :
    send_message e st c mt p? = none := by
  unfold send_message
  rw [if_neg (by simp [hp]), if_pos hsf]

/-- Members of a successful `send_message` result are send events. -/
theorem send_message_mem (e : ExtEnv) (st : AgentState) (c : String)
    (mt : MessageType) (p? : Option Payload) (evs : List Event)
    (heq : send_message e st c mt p? = some evs) :
    ∀ ev ∈ evs, ∃ om, ev = Event.send om := by
  unfold send_message at heq
  split_ifs at heq
  · simp only [Option.some.injEq] at heq
    subst heq
    intro ev hev
    simp at hev
  · simp only [Option.some.injEq] at heq
    subst heq
    intro ev hev
    simp at hev
    exact ⟨_, hev⟩

/-- Effect of dispatching one processed text/image arrival: the state gains
exactly the user turn then the agent turn; the trace starts with the user
append, the generation request (over the history slice predating the user
turn), and the agent append, in that order; everything after those three
events is participant-visible output (sends or spoken replies); and if the
outbound publish raises, nothing follows the two appends at all. -/
theorem step_good (gen : String → List Turn → String)
    (gimg : String → String → String) (a : Arrival) (st : AgentState)
    (h : GoodTI a) :
    (dispatchMessage gen gimg a.ext st a.msg).1
        = { st with conversation_history :=
              st.conversation_history
                ++ [userTurnOf a.msg, agentTurnOf gen gimg st.conversation_history a] }
    ∧ (dispatchMessage gen gimg a.ext st a.msg).2.get? 0
        = some (Event.appendTurn (userTurnOf a.msg))
    ∧ (dispatchMessage gen gimg a.ext st a.msg).2.get? 1
        = some (genEventOf st.conversation_history a.msg)
    ∧ (dispatchMessage gen gimg a.ext st a.msg).2.get? 2
        = some (Event.appendTurn (agentTurnOf gen gimg st.conversation_history a))
    ∧ (∀ ev ∈ (dispatchMessage gen gimg a.ext st a.msg).2.drop 3, Event.isOutput ev)
    ∧ (a.ext.sendFails = true → st.participant = true →
        (dispatchMessage gen gimg a.ext st a.msg).2.drop 3 = []) := by
  rcases h with ⟨ht, hc⟩ | ⟨ht, hd⟩
  · have hmain : dispatchMessage gen gimg a.ext st a.msg
        = handle_text_message gen a.ext st a.msg := by
      simp [dispatchMessage, ht]
    refine ⟨?_, ?_, ?_, ?_, ?_, ?_⟩
    · rw [hmain]
      simp only [handle_text_message]
      rw [if_neg hc]
      simp [userTurnOf, agentTurnOf, agentContentOf, ht, List.dropLast_concat,
        List.append_assoc]
    · rw [hmain]
      simp only [handle_text_message]
      rw [if_neg hc]
      simp [userTurnOf, ht]
    · rw [hmain]
      simp only [handle_text_message]
      rw [if_neg hc]
      simp [genEventOf, ht, List.dropLast_concat]
    · rw [hmain]
      simp only [handle_text_message]
      rw [if_neg hc]
      simp [agentTurnOf, agentContentOf, ht, List.dropLast_concat]
    · rw [hmain]
      simp only [handle_text_message]
      rw [if_neg hc]
      intro ev hev
      simp only [List.cons_append, List.nil_append, List.drop_succ_cons,
        List.drop_zero] at hev
      split at hev
      · simp at hev
      · rename_i sendEvs heq
        rw [List.mem_append] at hev
        rcases hev with hev | hev
        · exact Or.inl (send_message_mem _ _ _ _ _ _ heq ev hev)
        · split at hev
          · split at hev
            · simp at hev
              exact Or.inr ⟨_, hev⟩
            · simp at hev
          · simp at hev
    · intro hsf hp
      rw [hmain]
      simp [handle_text_message, hc, send_message, hp, hsf]
  · have hmain : dispatchMessage gen gimg a.ext st a.msg
        = handle_image_message gimg a.ext st a.msg := by
      simp [dispatchMessage, ht]
    refine ⟨?_, ?_, ?_, ?_, ?_, ?_⟩
    · rw [hmain]
      simp only [handle_image_message]
      rw [if_neg hd]
      simp [userTurnOf, agentTurnOf, agentContentOf, ht, List.append_assoc]
    · rw [hmain]
      simp only [handle_image_message]
      rw [if_neg hd]
      simp [userTurnOf, ht]
    · rw [hmain]
      simp only [handle_image_message]
      rw [if_neg hd]
      simp [genEventOf, ht]
    · rw [hmain]
      simp only [handle_image_message]
      rw [if_neg hd]
      simp [agentTurnOf, agentContentOf, ht]
    · rw [hmain]
      simp only [handle_image_message]
      rw [if_neg hd]
      intro ev hev
      simp only [List.cons_append, List.nil_append, List.drop_succ_cons,
        List.drop_zero] at hev
      split at hev
      · simp at hev
      · rename_i sendEvs heq
        exact Or.inl (send_message_mem _ _ _ _ _ _ heq ev hev)
    · intro hsf hp
      rw [hmain]
      simp [handle_image_message, hd, send_message, hp, hsf]

/-- Serial dispatch of processed text/image arrivals produces exactly the
predicted user/agent interleaving appended to the starting history. -/
theorem run_interleaving (gen : String → List Turn → String)
    (gimg : String → String → String) :
    ∀ (arrivals : List Arrival) (st : AgentState), (∀ a ∈ arrivals, GoodTI a) →
      (runArrivals gen gimg st arrivals).conversation_history
        = st.conversation_history
            ++ interleaveSpec gen gimg st.conversation_history arrivals
  | [], st, _ => by simp [runArrivals, interleaveSpec]
  | a :: rest, st, h => by
      have hstep := (step_good gen gimg a st (h a (List.mem_cons_self a rest))).1
      have ih := run_interleaving gen gimg rest
        (dispatchMessage gen gimg a.ext st a.msg).1
        (fun b hb => h b (List.mem_cons_of_mem a hb))
      calc (runArrivals gen gimg st (a :: rest)).conversation_history
          = (runArrivals gen gimg (dispatchMessage gen gimg a.ext st a.msg).1
              rest).conversation_history := rfl
        _ = (dispatchMessage gen gimg a.ext st a.msg).1.conversation_history
              ++ interleaveSpec gen gimg
                  (dispatchMessage gen gimg a.ext st a.msg).1.conversation_history
                  rest := ih
        _ = st.conversation_history
              ++ interleaveSpec gen gimg st.conversation_history (a :: rest) := by
            rw [hstep]
            simp [interleaveSpec, List.append_assoc]

/-- Index shape of the predicted interleaving: position `2 i` holds the user
turn of arrival `i` and position `2 i + 1` holds an agent turn. -/
theorem interleave_get (gen : String → List Turn → String)
    (gimg : String → String → String) :
    ∀ (arrivals : List Arrival) (hist : List Turn) (i : Nat) (a : Arrival),
      arrivals.get? i = some a →
      ∃ agTurn : Turn,
        (interleaveSpec gen gimg hist arrivals).get? (2 * i)
            = some (userTurnOf a.msg)
        ∧ (interleaveSpec gen gimg hist arrivals).get? (2 * i + 1) = some agTurn
        ∧ agTurn.sender = "agent"
  | [], _, i, a => by
      intro hget
      simp at hget
  | b :: rest, hist, 0, a => by
      intro hget
      simp at hget
      subst hget
      exact ⟨agentTurnOf gen gimg hist b, by simp [interleaveSpec],
        by simp [interleaveSpec], rfl⟩
  | b :: rest, hist, i + 1, a => by
      intro hget
      have hget' : rest.get? i = some a := by simpa using hget
      obtain ⟨agTurn, h1, h2, h3⟩ := interleave_get gen gimg rest
        (hist ++ [userTurnOf b.msg, agentTurnOf gen gimg hist b]) i a hget'
      have e1 : 2 * (i + 1) = 2 * i + 1 + 1 := by ring
      have e2 : 2 * (i + 1) + 1 = 2 * i + 1 + 1 + 1 := by ring
      refine ⟨agTurn, ?_, ?_, h3⟩
      · rw [e1]
        simpa [interleaveSpec] using h1
      · rw [e2]
        simpa [interleaveSpec] using h2

/-- C1: for every serially handled sequence of processed inbound text/image
messages (non-empty content/data), the resulting conversation history is
exactly the starting history followed by the interleaving
`[user 1, agent 1, user 2, agent 2, ...]` in arrival order; per message the
user turn is appended before the generation request is issued (the request
sees only the history predating that turn), the agent turn is appended right
after generation and before any outbound send, and when the outbound send
fails both turns are nevertheless in the history (nothing beyond the two
appended turns happens, and the state retains them). -/
theorem c1_history_interleaving (gen : String → List Turn → String)
    (gimg : String → String → String) (st : AgentState)
    (arrivals : List Arrival) (h : ∀ a ∈ arrivals, GoodTI a) :
    (runArrivals gen gimg st arrivals).conversation_history
      = st.conversation_history
          ++ interleaveSpec gen gimg st.conversation_history arrivals
    ∧ (∀ (a : Arrival) (st' : AgentState), GoodTI a →
        (dispatchMessage gen gimg a.ext st' a.msg).1.conversation_history
            = st'.conversation_history
                ++ [userTurnOf a.msg,
                    agentTurnOf gen gimg st'.conversation_history a]
          ∧ (dispatchMessage gen gimg a.ext st' a.msg).2.get? 0
              = some (Event.appendTurn (userTurnOf a.msg))
          ∧ (dispatchMessage gen gimg a.ext st' a.msg).2.get? 1
              = some (genEventOf st'.conversation_history a.msg)
          ∧ (dispatchMessage gen gimg a.ext st' a.msg).2.get? 2
              = some (Event.appendTurn (agentTurnOf gen gimg st'.conversation_history a))
          ∧ (∀ ev ∈ (dispatchMessage gen gimg a.ext st' a.msg).2.drop 3,
              Event.isOutput ev)
          ∧ (a.ext.sendFails = true → st'.participant = true →
              (dispatchMessage gen gimg a.ext st' a.msg).2.drop 3 = []))
    ∧ (∀ (i : Nat) (a : Arrival), arrivals.get? i = some a →
        ∃ agTurn : Turn,
          (interleaveSpec gen gimg st.conversation_history arrivals).get? (2 * i)
              = some (userTurnOf a.msg)
          ∧ (interleaveSpec gen gimg st.conversation_history arrivals).get?
              (2 * i + 1) = some agTurn
          ∧ agTurn.sender = "agent") := by
  refine ⟨run_interleaving gen gimg arrivals st h, ?_, ?_⟩
  · intro a st' ha
    have hs := step_good gen gimg a st' ha
    exact ⟨by rw [hs.1], hs.2.1, hs.2.2.1, hs.2.2.2.1, hs.2.2.2.2.1, hs.2.2.2.2.2⟩
  · intro i a hia
    exact interleave_get gen gimg arrivals st.conversation_history i a hia

/-- Witness for C1: a text message followed by an image message whose
outbound send fails; the history is still the full 4-turn interleaving. -/
theorem c1_history_interleaving_witness :
    (runArrivals (fun _ _ => "ok") (fun _ _ => "img")
        ⟨none, [], true, true, false, initialMetrics⟩
        [⟨⟨MessageType.text, [("content", "hi")], 5, "m1"⟩, ⟨7, false, false⟩⟩,
         ⟨⟨MessageType.image, [("data", "d1")], 8, "m2"⟩, ⟨9, true, false⟩⟩]).conversation_history
      = [⟨"user", "hi", 5⟩, ⟨"agent", "ok", 7⟩,
         ⟨"user", "[Image]", 8⟩, ⟨"agent", "img", 9⟩] := by
  rw [(c1_history_interleaving (fun _ _ => "ok") (fun _ _ => "img")
      ⟨none, [], true, true, false, initialMetrics⟩
      [⟨⟨MessageType.text, [("content", "hi")], 5, "m1"⟩, ⟨7, false, false⟩⟩,
       ⟨⟨MessageType.image, [("data", "d1")], 8, "m2"⟩, ⟨9, true, false⟩⟩]
      (by
        intro b hb
        fin_cases hb
        · exact Or.inl ⟨rfl, by decide⟩
        · exact Or.inr ⟨rfl, by decide⟩)).1]
  rfl

end BakeBot
